import Mathlib

/-!
Verification of the per-connection chat session protocol in
`src/websockets/chat-broker/src/session.rs` (`WsChatSession`).

The embedding is shallow: the session actor becomes a record of its three
fields (`client_id`, `room_name`, `client_name`); every handler becomes a
pure function from the session state (plus a Registry oracle describing the
responses of the external `WsChatServer`) to a `StepResult` holding the new
state, the text lines rendered to the client (`ctx.text`), the Registry
calls issued (with their issue mode: awaited/synchronous vs fire-and-forget),
and whether the handler closed or stopped the connection.  Because each Rust
handler runs on the actor's single-threaded context, and `join_room` updates
its two fields inside one `.wait(ctx)` continuation that blocks the mailbox,
one Lean function application per inbound frame is a faithful rendering of
one observable step.
-/

namespace ChatBroker

/-- The session state: the three fields of `WsChatSession` in `session.rs`
(`#[derive(Default)] pub struct WsChatSession`).  `usize` is modelled as
`Nat`. -/
structure WsChatSession where
  client_id : Nat
  room_name : String
  client_name : Option String
deriving DecidableEq, Repr

/-- Rust `Default` for the struct: `usize` 0, empty `String`, `None`. -/
def WsChatSession.default : WsChatSession :=
  { client_id := 0, room_name := "", client_name := none }

/-- `WsChatSession::client_name(&self)`: the stored name or `"anon"`
(`self.client_name.as_ref().unwrap_or(&String::from("anon")).clone()`).
Named `clientName` because the Lean field of the same struct already uses
the source name. -/
def clientName (s : WsChatSession) : String :=
  s.client_name.getD "anon"

/-- Whether a Registry call is awaited by the session (`Addr::send(..).wait`
or `issue_system_sync`) or fire-and-forget (`issue_system_async`). -/
inductive IssueMode where
  | sync
  | async
deriving DecidableEq, Repr

/-- The messages of `crate::message` the session sends to the Registry
(`WsChatServer`).  The `JoinRoom` message in the source also carries
`ctx.address().recipient()`, the callback address of this very session; it
is determined by the session itself and carries no varying data, so it is
not represented. -/
inductive RegistryCall where
  | joinRoom (room : String) (name : String)
  | leaveRoom (room : String) (id : Nat)
  | listRooms
  | listClients (room : String)
  | sendMessage (room : String) (id : Nat) (text : String)
deriving DecidableEq, Repr

/-- Is the call a `SendMessage` broadcast? -/
def RegistryCall.isSend : RegistryCall → Bool
  | .sendMessage _ _ _ => true
  | _ => false

/-- Oracle for the external Registry (`WsChatServer`, out of scope of the
session protocol): the response each awaited request would receive.
`none` models a failed mailbox send (`Err` in the `if let Ok(..)`
branches). -/
structure Registry where
  joinRoom : String → String → Option Nat
  listRooms : Option (List String)
  listClients : String → Option (List String)

/-- Result of one handler invocation: the state afterwards, the `ctx.text`
lines rendered to this client in order, the Registry calls issued in order,
and whether the handler called `ctx.close` / `ctx.stop`. -/
structure StepResult where
  session : WsChatSession
  outputs : List String
  calls : List (IssueMode × RegistryCall)
  closed : Bool
  stopped : Bool
deriving DecidableEq, Repr

/-- A step that only renders one text line (`ctx.text(..)`). -/
def textOnly (s : WsChatSession) (line : String) : StepResult :=
  { session := s, outputs := [line], calls := [], closed := false, stopped := false }

/-- A step with no observable effect at all (the `_ => {}` arm). -/
def noopResult (s : WsChatSession) : StepResult :=
  { session := s, outputs := [], calls := [], closed := false, stopped := false }

/-- The Unicode White_Space property, as used by Rust `str::trim`
(`char::is_whitespace`). -/
def isRustWhitespace (c : Char) : Bool :=
  c = ' ' || c = '\t' || c = '\n' || c.val = 0x0B || c.val = 0x0C || c = '\r'
    || c.val = 0x85 || c.val = 0xA0 || c.val = 0x1680
    || (0x2000 ≤ c.val && c.val ≤ 0x200A)
    || c.val = 0x2028 || c.val = 0x2029 || c.val = 0x202F
    || c.val = 0x205F || c.val = 0x3000

/-- Rust `str::trim`: strip leading and trailing whitespace. -/
def rustTrim (t : String) : String :=
  ⟨((t.data.dropWhile isRustWhitespace).reverse.dropWhile isRustWhitespace).reverse⟩

/-- `msg.starts_with('/')`. -/
def startsWithSlash (s : String) : Bool :=
  match s.data with
  | [] => false
  | c :: _ => c = '/'

/-- Worker for `splitn(2, ' ')`: scan for the first space character,
accumulating the prefix. -/
def splitn2Go : List Char → List Char → List Char × Option (List Char)
  | acc, [] => (acc.reverse, none)
  | acc, c :: cs => if c = ' ' then (acc.reverse, some cs) else splitn2Go (c :: acc) cs

/-- Rust `msg.splitn(2, ' ')` read off as (first element, optional second
element): the text before the first space character, and everything after
it (`none` when the text contains no space).  The pattern is the char
`' '`, i.e. U+0020 only. -/
def splitn2 (s : String) : String × Option String :=
  match splitn2Go [] s.data with
  | (a, none) => (⟨a⟩, none)
  | (a, some b) => (⟨a⟩, some ⟨b⟩)

/-- One character under Rust `Debug` formatting for `str` (`{:?}`):
quote, backslash, `\n`, `\r`, `\t` and NUL get their two-character escapes,
other ASCII control characters (and DEL) become `\u{..}`.  The escaping of
non-printable characters beyond ASCII is not modelled (no claim exercises
it); such characters pass through unchanged. -/
def escapeDebugChar (c : Char) : List Char :=
  if c = '"' then ['\\', '"']
  else if c = '\\' then ['\\', '\\']
  else if c = '\n' then ['\\', 'n']
  else if c = '\r' then ['\\', 'r']
  else if c = '\t' then ['\\', 't']
  else if c = '\x00' then ['\\', '0']
  else if c.val < 0x20 || c.val = 0x7F then
    '\\' :: 'u' :: '\x7b' :: (Nat.toDigits 16 c.val.toNat ++ ['\x7d'])
  else [c]

/-- Rust `format!("{:?}", msg)` on a `&str`: the text wrapped in double
quotes with each character escaped by `escapeDebugChar`. -/
def rustDebugStr (s : String) : String :=
  ⟨'"' :: (s.data.flatMap escapeDebugChar ++ ['"'])⟩

/-- `WsChatSession::join_room`: send `JoinRoom(room_name, client_name(),
recipient)` to the Registry and wait; on `Ok(id)` set `client_id` and
`room_name` inside the single continuation, on failure change nothing.
No text is rendered in either case. -/
def join_room (reg : Registry) (room_name : String) (s : WsChatSession) : StepResult :=
  match reg.joinRoom room_name (clientName s) with
  | some id =>
      { session := { s with client_id := id, room_name := room_name }
        outputs := []
        calls := [(IssueMode.sync, RegistryCall.joinRoom room_name (clientName s))]
        closed := false, stopped := false }
  | none =>
      { session := s
        outputs := []
        calls := [(IssueMode.sync, RegistryCall.joinRoom room_name (clientName s))]
        closed := false, stopped := false }

/-- `WsChatSession::list_rooms`: send `ListRooms`, wait, and on `Ok(rooms)`
render each room as its own line; on failure render nothing. -/
def list_rooms (reg : Registry) (s : WsChatSession) : StepResult :=
  { session := s
    outputs := reg.listRooms.getD []
    calls := [(IssueMode.sync, RegistryCall.listRooms)]
    closed := false, stopped := false }

/-- `WsChatSession::list_clients`: send `ListClients(room_name.clone())`,
wait, and on `Ok(clients)` render each; on failure render nothing. -/
def list_clients (reg : Registry) (s : WsChatSession) : StepResult :=
  { session := s
    outputs := (reg.listClients s.room_name).getD []
    calls := [(IssueMode.sync, RegistryCall.listClients s.room_name)]
    closed := false, stopped := false }

/-- `WsChatSession::send_msg`: compose `format!("{}: {}", client_name(),
msg)` and issue `SendMessage(room_name.clone(), client_id, content)`
asynchronously (`issue_system_async`). -/
def send_msg (s : WsChatSession) (msg : String) : StepResult :=
  { session := s
    outputs := []
    calls := [(IssueMode.async,
      RegistryCall.sendMessage s.room_name s.client_id (clientName s ++ ": " ++ msg))]
    closed := false, stopped := false }

/-- `WsChatSession::who_am_i`: render one line from local state only. -/
def who_am_i (s : WsChatSession) : StepResult :=
  textOnly s ("name: " ++ clientName s ++ ", client_id: " ++ toString s.client_id
    ++ " in room_name: " ++ s.room_name)

/-- `Actor::started`: `self.join_room("Main", ctx)`. -/
def startedHandler (reg : Registry) (s : WsChatSession) : StepResult :=
  join_room reg "Main" s

/-- `Actor::stopped`: issue `LeaveRoom(room_name.clone(), client_id)` with
`issue_system_sync`, then only log.  The effect list of the stopping
transition. -/
def stoppedHandler (s : WsChatSession) : List (IssueMode × RegistryCall) :=
  [(IssueMode.sync, RegistryCall.leaveRoom s.room_name s.client_id)]

/-- The command dispatch of `StreamHandler::handle` once the trimmed text
is known to start with `/`: `cmd` is the first element of
`splitn(2, ' ')`, `rest` the optional second, `raw` the whole trimmed
text (used by the unknown-command arm's `{:?}`). -/
def handleCommand (reg : Registry) (s : WsChatSession) (raw cmd : String)
    (rest : Option String) : StepResult :=
  if cmd = "/list" then list_rooms reg s
  else if cmd = "/join" then
    match rest with
    | some room_name => join_room reg room_name s
    | none => textOnly s "!!! room name is required"
  else if cmd = "/name" then
    match rest with
    | some nm =>
        { session := { s with client_name := some nm }
          outputs := ["name changed to: " ++ nm]
          calls := [], closed := false, stopped := false }
    | none => textOnly s "!!! name is required"
  else if cmd = "/list-clients" then list_clients reg s
  else if cmd = "/whoami" then who_am_i s
  else textOnly s ("!!! unknown command: " ++ rustDebugStr raw)

/-- The `ws::Message::Text(text)` arm of `StreamHandler::handle`: trim,
then either dispatch a `/` command (which `return`s, never falling through
to the broadcast) or broadcast the trimmed text via `send_msg`. -/
def handleText (reg : Registry) (s : WsChatSession) (t : String) : StepResult :=
  if startsWithSlash (rustTrim t) then
    handleCommand reg s (rustTrim t) (splitn2 (rustTrim t)).1 (splitn2 (rustTrim t)).2
  else
    send_msg s (rustTrim t)

/-- The inbound transport frames of `actix_web_actors::ws::Message`.
A transport-level error (the `Err(_)` of the stream item) is the
`Except.error` side of the handler input. -/
inductive WsMessage where
  | text (t : String)
  | binary (b : List Nat)
  | continuation
  | ping (p : String)
  | pong (p : String)
  | close
  | nop
deriving DecidableEq, Repr

/-- `StreamHandler::handle` for `WsChatSession`: a transport error stops
the session; `Text` is parsed and dispatched; `Close` echoes the close and
stops; every other frame does nothing. -/
def handle (reg : Registry) (s : WsChatSession) (msg : Except Unit WsMessage) : StepResult :=
  match msg with
  | .error _ =>
      { session := s, outputs := [], calls := [], closed := false, stopped := true }
  | .ok (WsMessage.text t) => handleText reg s t
  | .ok WsMessage.close =>
      { session := s, outputs := [], calls := [], closed := true, stopped := true }
  | .ok (WsMessage.binary _) => noopResult s
  | .ok WsMessage.continuation => noopResult s
  | .ok (WsMessage.ping _) => noopResult s
  | .ok (WsMessage.pong _) => noopResult s
  | .ok WsMessage.nop => noopResult s

/-- A Registry oracle that always answers, used to instantiate theorems at
concrete inputs. -/
def regW : Registry :=
  { joinRoom := fun _ _ => some 7
    listRooms := some ["Main", "Lounge"]
    listClients := fun _ => some ["anon"] }

/-- A Registry oracle whose every request fails, used to instantiate the
failure-handling theorems. -/
def regF : Registry :=
  { joinRoom := fun _ _ => none
    listRooms := none
    listClients := fun _ => none }

end ChatBroker

namespace ChatBroker

/-- C1: a successful room-transition handshake (the startup join or a
`/join` whose Registry reply is `Ok(id)`) adopts the target room name and
the returned identifier together, in the one continuation step, leaving
every other field untouched; the startup join is the same handshake aimed
at "Main". -/
theorem join_adopts_room_and_id_atomically (reg : Registry) (s : WsChatSession)
    (room : String) (id : Nat)
    (h : reg.joinRoom room (clientName s) = some id) :
    (join_room reg room s).session = { s with client_id := id, room_name := room }
    ∧ startedHandler reg s = join_room reg "Main" s := by
  refine ⟨?_, rfl⟩
  simp [join_room, h]

/-- Witness for C1 at a concrete registry and session. -/
theorem join_adopts_room_and_id_atomically_witness :
    regW.joinRoom "Lounge" (clientName WsChatSession.default) = some 7
    ∧ ((join_room regW "Lounge" WsChatSession.default).session
        = { WsChatSession.default with client_id := 7, room_name := "Lounge" }
      ∧ startedHandler regW WsChatSession.default
        = join_room regW "Main" WsChatSession.default) :=
  ⟨rfl, join_adopts_room_and_id_atomically regW WsChatSession.default "Lounge" 7 rfl⟩

/-- C2: a newly started session carries the placeholder name "anon", its
startup handshake is a join for exactly the room "Main" under that name,
and when that join succeeds with identifier `id` the session holds
`room_name = "Main"` and `client_id = id`. -/
theorem default_room_main (reg : Registry) (id : Nat)
    (h : reg.joinRoom "Main" "anon" = some id) :
    clientName WsChatSession.default = "anon"
    ∧ (startedHandler reg WsChatSession.default).calls
        = [(IssueMode.sync, RegistryCall.joinRoom "Main" "anon")]
    ∧ (startedHandler reg WsChatSession.default).session.room_name = "Main"
    ∧ (startedHandler reg WsChatSession.default).session.client_id = id := by
  have hc : clientName WsChatSession.default = "anon" := rfl
  refine ⟨rfl, ?_, ?_, ?_⟩ <;>
    simp [startedHandler, join_room, hc, h]

/-- Witness for C2 at a concrete registry. -/
theorem default_room_main_witness :
    regW.joinRoom "Main" "anon" = some 7
    ∧ (clientName WsChatSession.default = "anon"
      ∧ (startedHandler regW WsChatSession.default).calls
          = [(IssueMode.sync, RegistryCall.joinRoom "Main" "anon")]
      ∧ (startedHandler regW WsChatSession.default).session.room_name = "Main"
      ∧ (startedHandler regW WsChatSession.default).session.client_id = 7) :=
  ⟨rfl, default_room_main regW 7 rfl⟩

/-- C8: entering the stopping state issues exactly one Registry call, a
synchronous `LeaveRoom` carrying the session's current room name and its
current identifier, and that single call is not a broadcast; nothing
further is issued. -/
theorem stopping_issues_sync_leave (s : WsChatSession) :
    stoppedHandler s = [(IssueMode.sync, RegistryCall.leaveRoom s.room_name s.client_id)]
    ∧ (stoppedHandler s).length = 1
    ∧ ∀ mc ∈ stoppedHandler s, mc.1 = IssueMode.sync ∧ mc.2.isSend = false := by
  refine ⟨rfl, rfl, ?_⟩
  intro mc hmc
  simp only [stoppedHandler, List.mem_singleton] at hmc
  subst hmc
  exact ⟨rfl, rfl⟩

/-- C9: a binary, ping, pong, continuation or nop frame renders nothing,
issues no Registry call, does not close or stop the connection, and leaves
the whole session state unchanged. -/
theorem non_chat_frames_are_noops (reg : Registry) (s : WsChatSession) :
    (∀ b, handle reg s (Except.ok (WsMessage.binary b)) = noopResult s)
    ∧ (∀ p, handle reg s (Except.ok (WsMessage.ping p)) = noopResult s)
    ∧ (∀ p, handle reg s (Except.ok (WsMessage.pong p)) = noopResult s)
    ∧ handle reg s (Except.ok WsMessage.continuation) = noopResult s
    ∧ handle reg s (Except.ok WsMessage.nop) = noopResult s :=
  ⟨fun _ => rfl, fun _ => rfl, fun _ => rfl, rfl, rfl⟩

end ChatBroker

namespace ChatBroker

theorem handleCommand_no_send (reg : Registry) (s : WsChatSession) (raw cmd : String)
    (rest : Option String) :
    ∀ mc ∈ (handleCommand reg s raw cmd rest).calls, mc.2.isSend = false := by
  intro mc hmc
  unfold handleCommand at hmc
  repeat' split at hmc
  all_goals
    simp_all [list_rooms, list_clients, join_room, who_am_i, textOnly, RegistryCall.isSend]
  all_goals
    (try split at hmc) <;> simp_all [RegistryCall.isSend]

/-- C3: an inbound text frame whose trimmed text starts with `/` never
issues a `SendMessage` broadcast to the Registry, whatever the command
token is. -/
theorem commands_never_broadcast (reg : Registry) (s : WsChatSession) (t : String)
    (h : startsWithSlash (rustTrim t) = true) :
    ∀ mc ∈ (handle reg s (Except.ok (WsMessage.text t))).calls, mc.2.isSend = false := by
  intro mc hmc
  simp only [handle, handleText, h, if_true] at hmc
  exact handleCommand_no_send reg s _ _ _ mc hmc

/-- Witness for C3 on the frame "/join Lounge". -/
theorem commands_never_broadcast_witness :
    startsWithSlash (rustTrim "/join Lounge") = true
    ∧ ∀ mc ∈ (handle regW WsChatSession.default
        (Except.ok (WsMessage.text "/join Lounge"))).calls, mc.2.isSend = false :=
  ⟨rfl, commands_never_broadcast regW WsChatSession.default "/join Lounge" rfl⟩

end ChatBroker

namespace ChatBroker

theorem data_name_append (nm : String) :
    ("/name " ++ nm).data = '/' :: 'n' :: 'a' :: 'm' :: 'e' :: ' ' :: nm.data := by
  simp [String.data_append]

theorem startsWithSlash_name (nm : String) :
    startsWithSlash ("/name " ++ nm) = true := by
  simp [startsWithSlash, data_name_append]

theorem splitn2_name (nm : String) :
    splitn2 ("/name " ++ nm) = ("/name", some nm) := by
  simp [splitn2, data_name_append, splitn2Go]

end ChatBroker

namespace ChatBroker

/-- C4: a frame whose trimmed text does not start with `/` is broadcast:
the handler issues exactly one call, the asynchronous
`SendMessage(room_name, client_id, "{clientName}: {body}")` with the
session's current room and identifier, renders nothing, and changes no
state; the name used is the stored one (set by the most recent `/name`,
as the last conjunct shows) or "anon" when none was ever stored. -/
theorem plain_message_broadcast (reg : Registry) (s : WsChatSession) (t : String)
    (h : startsWithSlash (rustTrim t) = false) :
    handle reg s (Except.ok (WsMessage.text t))
      = { session := s, outputs := [],
          calls := [(IssueMode.async,
            RegistryCall.sendMessage s.room_name s.client_id
              (clientName s ++ ": " ++ rustTrim t))],
          closed := false, stopped := false }
    ∧ (s.client_name = none → clientName s = "anon")
    ∧ (∀ n, s.client_name = some n → clientName s = n)
    ∧ (∀ nm, rustTrim ("/name " ++ nm) = "/name " ++ nm →
        handle reg s (Except.ok (WsMessage.text ("/name " ++ nm)))
          = { session := { s with client_name := some nm },
              outputs := ["name changed to: " ++ nm],
              calls := [], closed := false, stopped := false }) := by
  refine ⟨?_, ?_, ?_, ?_⟩
  · simp [handle, handleText, h, send_msg]
  · intro h2; simp [clientName, h2]
  · intro n h2; simp [clientName, h2]
  · intro nm htrim
    simp only [handle, handleText, htrim, startsWithSlash_name, if_true, splitn2_name]
    simp [handleCommand]

end ChatBroker

namespace ChatBroker

/-- Witness for C4: the frame "hello" from a fresh session broadcasts
"anon: hello"; a preceding "/name Alice" stores the name "Alice". -/
theorem plain_message_broadcast_witness :
    startsWithSlash (rustTrim "hello") = false
    ∧ handle regW WsChatSession.default (Except.ok (WsMessage.text "hello"))
        = { session := WsChatSession.default, outputs := [],
            calls := [(IssueMode.async,
              RegistryCall.sendMessage WsChatSession.default.room_name
                WsChatSession.default.client_id
                (clientName WsChatSession.default ++ ": " ++ rustTrim "hello"))],
            closed := false, stopped := false }
    ∧ rustTrim ("/name " ++ "Alice") = "/name " ++ "Alice"
    ∧ handle regW WsChatSession.default (Except.ok (WsMessage.text ("/name " ++ "Alice")))
        = { session := { WsChatSession.default with client_name := some "Alice" },
            outputs := ["name changed to: " ++ "Alice"],
            calls := [], closed := false, stopped := false } :=
  ⟨rfl, (plain_message_broadcast regW WsChatSession.default "hello" rfl).1,
    by decide,
    (plain_message_broadcast regW WsChatSession.default "hello" rfl).2.2.2 "Alice" (by decide)⟩

theorem splitn2Go_of_not_mem (l : List Char) (acc : List Char) (h : ' ' ∉ l) :
    splitn2Go acc l = (acc.reverse ++ l, none) := by
  induction l generalizing acc with
  | nil => simp [splitn2Go]
  | cons c cs ih =>
      have hc : ¬(c = ' ') := fun hce => h (hce ▸ List.mem_cons_self c cs)
      have hcs : ' ' ∉ cs := fun hm => h (List.mem_cons_of_mem c hm)
      simp only [splitn2Go, if_neg hc, ih _ hcs, List.reverse_cons, List.append_assoc,
        List.singleton_append]

theorem splitn2Go_of_mem (l : List Char) (acc : List Char) (h : ' ' ∈ l) :
    ∃ pre rest, l = pre ++ ' ' :: rest ∧ ' ' ∉ pre
      ∧ splitn2Go acc l = (acc.reverse ++ pre, some rest) := by
  induction l generalizing acc with
  | nil => simp at h
  | cons c cs ih =>
      by_cases hc : c = ' '
      · subst hc
        exact ⟨[], cs, rfl, by simp, by simp [splitn2Go]⟩
      · have hm : ' ' ∈ cs := by
          rcases List.mem_cons.mp h with h1 | h1
          · exact absurd h1.symm hc
          · exact h1
        obtain ⟨pre, rest, hsplit, hpre, hgo⟩ := ih (c :: acc) hm
        refine ⟨c :: pre, rest, by simp [hsplit], ?_, ?_⟩
        · intro hmem
          rcases List.mem_cons.mp hmem with h1 | h1
          · exact hc h1.symm
          · exact hpre h1
        · simp only [splitn2Go, if_neg hc, hgo, List.reverse_cons, List.append_assoc,
            List.singleton_append]

end ChatBroker

namespace ChatBroker

/-- C5 counterexample: the frame "/name\tAlice" contains a whitespace
character (the tab), yet `splitn(2, ' ')` yields no second part and the
whole text as the command token — the parser did not split at the first
whitespace character as the claim states. -/
theorem splitn2_tab_not_split :
    splitn2 "/name\tAlice" = ("/name\tAlice", none)
    ∧ isRustWhitespace '\t' = true
    ∧ '\t' ∈ "/name\tAlice".data := by
  refine ⟨by decide, by decide, by decide⟩

/-- C5 (amended): the parser splits the trimmed frame into exactly two
parts on the first space character (U+0020) only — a command token not
containing a space, and an optional remainder that is `none` exactly when
the frame contains no space character (other whitespace characters do not
split). -/
theorem splitn2_splits_on_first_space (s : String) :
    ((splitn2 s).2 = none ∧ (splitn2 s).1 = s ∧ ' ' ∉ s.data)
    ∨ (∃ rest, (splitn2 s).2 = some rest
        ∧ s.data = (splitn2 s).1.data ++ ' ' :: rest.data
        ∧ ' ' ∉ (splitn2 s).1.data) := by
  by_cases h : ' ' ∈ s.data
  · right
    obtain ⟨pre, rest, hsplit, hpre, hgo⟩ := splitn2Go_of_mem s.data [] h
    have hs : splitn2 s = (⟨pre⟩, some ⟨rest⟩) := by
      simp [splitn2, hgo]
    refine ⟨⟨rest⟩, by simp [hs], ?_, ?_⟩
    · simpa [hs] using hsplit
    · simpa [hs] using hpre
  · left
    have hgo := splitn2Go_of_not_mem s.data [] h
    have hs : splitn2 s = (⟨s.data⟩, none) := by
      simp [splitn2, hgo]
    exact ⟨by simp [hs], by simp [hs], h⟩

end ChatBroker

namespace ChatBroker

/-- C6: every Registry-call failure is recovered locally by discarding the
result: a failed join leaves the session exactly as it was, renders no
line, and issues only the single join call (no retry); a failed `/list` or
`/list-clients` renders nothing and also leaves the state unchanged. -/
theorem registry_failures_recovered_locally (reg : Registry) (s : WsChatSession)
    (room : String) :
    (reg.joinRoom room (clientName s) = none →
      join_room reg room s
        = { session := s, outputs := [],
            calls := [(IssueMode.sync, RegistryCall.joinRoom room (clientName s))],
            closed := false, stopped := false })
    ∧ (reg.listRooms = none →
      list_rooms reg s
        = { session := s, outputs := [],
            calls := [(IssueMode.sync, RegistryCall.listRooms)],
            closed := false, stopped := false })
    ∧ (reg.listClients s.room_name = none →
      list_clients reg s
        = { session := s, outputs := [],
            calls := [(IssueMode.sync, RegistryCall.listClients s.room_name)],
            closed := false, stopped := false }) := by
  refine ⟨fun hj => ?_, fun hl => ?_, fun hc => ?_⟩
  · simp [join_room, hj]
  · simp [list_rooms, hl]
  · simp [list_clients, hc]

/-- Witness for C6 against the always-failing registry. -/
theorem registry_failures_recovered_locally_witness :
    regF.joinRoom "Lounge" (clientName WsChatSession.default) = none
    ∧ join_room regF "Lounge" WsChatSession.default
        = { session := WsChatSession.default, outputs := [],
            calls := [(IssueMode.sync,
              RegistryCall.joinRoom "Lounge" (clientName WsChatSession.default))],
            closed := false, stopped := false }
    ∧ regF.listRooms = none
    ∧ list_rooms regF WsChatSession.default
        = { session := WsChatSession.default, outputs := [],
            calls := [(IssueMode.sync, RegistryCall.listRooms)],
            closed := false, stopped := false }
    ∧ regF.listClients WsChatSession.default.room_name = none
    ∧ list_clients regF WsChatSession.default
        = { session := WsChatSession.default, outputs := [],
            calls := [(IssueMode.sync,
              RegistryCall.listClients WsChatSession.default.room_name)],
            closed := false, stopped := false } :=
  ⟨rfl,
    (registry_failures_recovered_locally regF WsChatSession.default "Lounge").1 rfl,
    rfl,
    (registry_failures_recovered_locally regF WsChatSession.default "Lounge").2.1 rfl,
    rfl,
    (registry_failures_recovered_locally regF WsChatSession.default "Lounge").2.2 rfl⟩

/-- The five command tokens the dispatch recognizes. -/
def knownCommand (c : String) : Bool :=
  c == "/list" || c == "/join" || c == "/name" || c == "/list-clients" || c == "/whoami"

/-- C7: a `/join` or `/name` without an argument renders exactly one local
error line with no Registry call and no state change; an unrecognized
command likewise renders exactly one line, echoing the raw input in Rust
debug quotes; on the concrete frame "/frobnicate x" that single line
contains the literal text "/frobnicate x". -/
theorem usage_and_unknown_errors_local (reg : Registry) (s : WsChatSession) (t : String) :
    (rustTrim t = "/join" →
      handle reg s (Except.ok (WsMessage.text t)) = textOnly s "!!! room name is required")
    ∧ (rustTrim t = "/name" →
      handle reg s (Except.ok (WsMessage.text t)) = textOnly s "!!! name is required")
    ∧ (startsWithSlash (rustTrim t) = true →
        knownCommand (splitn2 (rustTrim t)).1 = false →
        handle reg s (Except.ok (WsMessage.text t))
          = textOnly s ("!!! unknown command: " ++ rustDebugStr (rustTrim t)))
    ∧ handle reg s (Except.ok (WsMessage.text "/frobnicate x"))
        = textOnly s ("!!! unknown command: " ++ ("\"" ++ "/frobnicate x" ++ "\"")) := by
  refine ⟨fun h => ?_, fun h => ?_, fun h1 h2 => ?_, ?_⟩
  · simp [handle, handleText, h, handleCommand, splitn2, splitn2Go, startsWithSlash]
  · simp [handle, handleText, h, handleCommand, splitn2, splitn2Go, startsWithSlash]
  · simp only [knownCommand, Bool.or_eq_false_iff, beq_eq_false_iff_ne, ne_eq] at h2
    obtain ⟨⟨⟨⟨hA, hB⟩, hC⟩, hD⟩, hE⟩ := h2
    simp only [handle, handleText, h1, if_true]
    simp [handleCommand, hA, hB, hC, hD, hE]
  · have ht : rustTrim "/frobnicate x" = "/frobnicate x" := by decide
    have hs : startsWithSlash "/frobnicate x" = true := by decide
    have hsp : splitn2 "/frobnicate x" = ("/frobnicate", some "x") := by decide
    have hd : rustDebugStr "/frobnicate x" = "\"" ++ "/frobnicate x" ++ "\"" := by decide
    simp only [handle, handleText, ht, hs, if_true, hsp]
    simp [handleCommand, hd]

end ChatBroker

namespace ChatBroker

/-- Witness for C7 at the concrete frames "/join", "/name" and
"/frobnicate x". -/
theorem usage_and_unknown_errors_local_witness :
    rustTrim "/join" = "/join"
    ∧ handle regW WsChatSession.default (Except.ok (WsMessage.text "/join"))
        = textOnly WsChatSession.default "!!! room name is required"
    ∧ rustTrim "/name" = "/name"
    ∧ handle regW WsChatSession.default (Except.ok (WsMessage.text "/name"))
        = textOnly WsChatSession.default "!!! name is required"
    ∧ startsWithSlash (rustTrim "/frobnicate x") = true
    ∧ knownCommand (splitn2 (rustTrim "/frobnicate x")).1 = false
    ∧ handle regW WsChatSession.default (Except.ok (WsMessage.text "/frobnicate x"))
        = textOnly WsChatSession.default
            ("!!! unknown command: " ++ rustDebugStr (rustTrim "/frobnicate x")) :=
  ⟨by decide,
    (usage_and_unknown_errors_local regW WsChatSession.default "/join").1 (by decide),
    by decide,
    (usage_and_unknown_errors_local regW WsChatSession.default "/name").2.1 (by decide),
    by decide, by decide,
    (usage_and_unknown_errors_local regW WsChatSession.default "/frobnicate x").2.2.1
      (by decide) (by decide)⟩

/-- C10: any text frame that is not a `/join` with an argument and not a
`/name` with an argument leaves all three session fields unchanged —
`/list`, `/list-clients`, `/whoami`, missing-argument errors, unknown
commands and plain broadcasts are read-only on the session state. -/
theorem non_join_name_text_preserves_state (reg : Registry) (s : WsChatSession) (t : String)
    (hj : ¬((splitn2 (rustTrim t)).1 = "/join" ∧ ((splitn2 (rustTrim t)).2).isSome = true))
    (hn : ¬((splitn2 (rustTrim t)).1 = "/name" ∧ ((splitn2 (rustTrim t)).2).isSome = true)) :
    (handle reg s (Except.ok (WsMessage.text t))).session = s := by
  by_cases hs : startsWithSlash (rustTrim t) = true
  · simp only [handle, handleText, hs, if_true]
    unfold handleCommand
    by_cases h1 : (splitn2 (rustTrim t)).1 = "/list"
    · simp [h1, list_rooms]
    · by_cases h2 : (splitn2 (rustTrim t)).1 = "/join"
      · cases hr : (splitn2 (rustTrim t)).2 with
        | none => simp [h1, h2, hr, textOnly]
        | some r => exact absurd ⟨h2, by simp [hr]⟩ hj
      · by_cases h3 : (splitn2 (rustTrim t)).1 = "/name"
        · cases hr : (splitn2 (rustTrim t)).2 with
          | none => simp [h1, h2, h3, hr, textOnly]
          | some r => exact absurd ⟨h3, by simp [hr]⟩ hn
        · by_cases h4 : (splitn2 (rustTrim t)).1 = "/list-clients"
          · simp [h1, h2, h3, h4, list_clients]
          · by_cases h5 : (splitn2 (rustTrim t)).1 = "/whoami"
            · simp [h1, h2, h3, h4, h5, who_am_i, textOnly]
            · simp [h1, h2, h3, h4, h5, textOnly]
  · simp only [handle, handleText, hs, if_false, Bool.not_eq_true] at *
    simp [handleText, hs, send_msg]

/-- Witness for C10 on the frame "/whoami". -/
theorem non_join_name_text_preserves_state_witness :
    ¬((splitn2 (rustTrim "/whoami")).1 = "/join"
        ∧ ((splitn2 (rustTrim "/whoami")).2).isSome = true)
    ∧ ¬((splitn2 (rustTrim "/whoami")).1 = "/name"
        ∧ ((splitn2 (rustTrim "/whoami")).2).isSome = true)
    ∧ (handle regW WsChatSession.default
        (Except.ok (WsMessage.text "/whoami"))).session = WsChatSession.default :=
  ⟨by decide, by decide,
    non_join_name_text_preserves_state regW WsChatSession.default "/whoami"
      (by decide) (by decide)⟩

end ChatBroker
